import Mathlib

/-!
# Rovio joystick teleoperation: `rovio_teleop.cpp`

A shallow embedding of `TeleopRovio` (constructor and `joyCallback`) together
with the properties of its input-to-output mapping.

Modelling conventions

* The scalar type of the axes, the scale factors and the command fields is a
  parameter `R` (the source uses `float`/`double`).  `joyCallback` only needs a
  multiplication and a zero on it; the default configuration needs `1` and
  `-1`.
* `int` indices and button states are `Int`.
* `std::vector::operator[]` does no bounds check.  A read at a position of the
  vector gives the element.  A read at any other index touches the memory
  around the vector: it gives whatever value lies there, or it hits an address
  that is not mapped and the process dies.  What lies around the two arrays of
  an event is an argument of the handler (`Beyond`): for each index, the value
  found there or `none` for a faulting read.  The theorems hold for every such
  memory.
* The middleware is not modelled.  What the handler sends to it is recorded in
  an output trace (`Effect`), and the answer of the `head_position` service is
  an argument of the handler: `some status` when the call succeeds, `none` when
  it fails.
-/

namespace RovioTeleop

/-! ## Data model -/

/-- Fields `x`, `y`, `z` of `geometry_msgs::Vector3`. -/
structure Vector3 (R : Type) where
  x : R
  y : R
  z : R
  deriving DecidableEq, Repr

/-- Message `geometry_msgs::Twist`: a linear and an angular part. -/
structure Twist (R : Type) where
  linear : Vector3 R
  angular : Vector3 R
  deriving DecidableEq, Repr

/-- Message `joy::Joy`: the axis values and the button states of one event. -/
structure Joy (R : Type) where
  axes : List R
  buttons : List Int
  deriving DecidableEq, Repr

/-- Modelled from the spec: the constants `rovio_common::Head::Request::DOWN`,
`MID` and `UP` come from the header `rovio_common/Head.h`, which is not part of
the source tree; the spec describes them as three enumerated positions. -/
inductive HeadPosition where
  | DOWN
  | MID
  | UP
  deriving DecidableEq, Repr

/-- Request part of the service record `rovio_common::Head`. -/
structure HeadRequest where
  position : HeadPosition
  deriving DecidableEq, Repr

/-- Response part of the service record `rovio_common::Head`. -/
structure HeadResponse where
  status : Int
  deriving DecidableEq, Repr

/-- Service record `rovio_common::Head` (member `head_srv_`). -/
structure Head where
  request : HeadRequest
  response : HeadResponse
  deriving DecidableEq, Repr

/-- Data members of class `TeleopRovio` (lines 36-45).  The middleware handles
`nh_`, `vel_pub_`, `joy_sub_` and `head_client_` are represented by the output
trace and by the service answer passed to the handler. -/
structure TeleopRovio (R : Type) where
  linearx_ : Int
  lineary_ : Int
  angular_ : Int
  head_down_ : Int
  head_mid_ : Int
  head_up_ : Int
  lx_scale_ : R
  ly_scale_ : R
  a_scale_ : R
  cmd : Twist R
  head_srv_ : Head
  deriving DecidableEq, Repr

/-- Values found on the parameter server at start-up; `none` when a parameter
is not set. -/
structure Params (R : Type) where
  axis_linearx : Option Int
  axis_lineary : Option Int
  axis_angular : Option Int
  scale_linearx : Option R
  scale_lineary : Option R
  scale_angular : Option R
  button_head_down : Option Int
  button_head_mid : Option Int
  button_head_up : Option Int

/-- Parameter server on which nothing is set. -/
def Params.unset {R : Type} : Params R :=
  ⟨none, none, none, none, none, none, none, none, none⟩

/-- Call `nh_param.param<T>(name, var, default)`: the stored value when the
parameter is set, the default otherwise. -/
def param {α : Type} (stored : Option α) (default : α) : α :=
  match stored with
  | some v => v
  | none => default

/-- What the handler hands to the middleware. -/
inductive Effect (R : Type) where
  | publish (cmd : Twist R)
  | call (position : HeadPosition)
  | logInfo (status : Int)
  | logError
  deriving DecidableEq, Repr

/-- How a run of the handler ends: it returns, or a read at an address that is
not mapped ends the process. -/
inductive Status where
  | returned
  | fault
  deriving DecidableEq, Repr

/-- Result of running the handler: the object afterwards, what was sent out, in
order, and whether the handler returned. -/
structure Run (R : Type) where
  self : TeleopRovio R
  out : List (Effect R)
  status : Status
  deriving DecidableEq, Repr

/-- Answer of the `head_position` service to a request: `some status` when
`head_client_.call` returns true, `none` when it returns false. -/
abbrev HeadService := HeadPosition → Option Int

/-- Memory around the two arrays of an event, as an unchecked read sees it: for
an index that is not a position of the array, the value the read finds
(`some`), or `none` when the address is not mapped and the read faults. -/
structure Beyond (R : Type) where
  axes : Int → Option R
  buttons : Int → Option Int

/-! ## Operations -/

/-- Index `i` is a position of the vector `v`. -/
def inBounds {α : Type} (v : List α) (i : Int) : Prop :=
  0 ≤ i ∧ i < v.length

instance {α : Type} (v : List α) (i : Int) : Decidable (inBounds v i) := by
  unfold inBounds; infer_instance

/-- Element access `v[i]` of `std::vector` with an `int` index, which checks
nothing: the element when `i` is a position of `v`, and otherwise what the
memory around the vector gives at that index, a value or a fault. -/
def read {α : Type} (beyond : Int → Option α) (v : List α) (i : Int) : Option α :=
  if 0 ≤ i ∧ i < v.length then v[i.toNat]? else beyond i

/-- Constructor `TeleopRovio::TeleopRovio` (lines 48-99): member initialisers,
parameter overrides, zeroed command.  The default-constructed service record
comes from the missing header and is an argument. -/
def TeleopRovio.init {R : Type} [Zero R] [One R] [Neg R] (p : Params R) (head0 : Head) :
    TeleopRovio R :=
  { linearx_ := param p.axis_linearx 1
    lineary_ := param p.axis_lineary 0
    angular_ := param p.axis_angular 2
    lx_scale_ := param p.scale_linearx 1
    ly_scale_ := param p.scale_lineary (-1)
    a_scale_ := param p.scale_angular (-1)
    head_down_ := param p.button_head_down 1
    head_mid_ := param p.button_head_mid 2
    head_up_ := param p.button_head_up 3
    cmd := ⟨⟨0, 0, 0⟩, ⟨0, 0, 0⟩⟩
    head_srv_ := head0 }

/-- Body shared by the three button branches of `joyCallback` (lines 114-123,
127-135, 139-147): store the position in the request, call the service once,
log the status on success and an error on failure. -/
def callHead {R : Type} (srv : HeadService) (self : TeleopRovio R) (out : List (Effect R))
    (position : HeadPosition) : Run R :=
  let self := { self with head_srv_ := { self.head_srv_ with request := ⟨position⟩ } }
  match srv position with
  | some status =>
    let self := { self with head_srv_ := { self.head_srv_ with response := ⟨status⟩ } }
    ⟨self, out ++ [Effect.call position, Effect.logInfo status], Status.returned⟩
  | none =>
    ⟨self, out ++ [Effect.call position, Effect.logError], Status.returned⟩

/-- Method `TeleopRovio::joyCallback` (lines 101-149), statement by statement.
Every `joy->axes[i]` and `joy->buttons[i]` is an unchecked `read`; the handler
goes on with the value the read gives, and stops only where a read faults. -/
def joyCallback {R : Type} [Mul R] [Zero R] (srv : HeadService) (mem : Beyond R)
    (self : TeleopRovio R) (joy : Joy R) : Run R :=
  match read mem.axes joy.axes self.linearx_ with
  | none => ⟨self, [], Status.fault⟩
  | some ax =>
    let self := { self with cmd := { self.cmd with linear := { self.cmd.linear with
      x := ax * self.lx_scale_ } } }
    match read mem.axes joy.axes self.lineary_ with
    | none => ⟨self, [], Status.fault⟩
    | some ay =>
      let self := { self with cmd := { self.cmd with linear := { self.cmd.linear with
        y := ay * self.ly_scale_ } } }
      let self := { self with cmd := { self.cmd with linear := { self.cmd.linear with
        z := 0 } } }
      let self := { self with cmd := { self.cmd with angular := { self.cmd.angular with
        x := 0 } } }
      let self := { self with cmd := { self.cmd with angular := { self.cmd.angular with
        y := 0 } } }
      match read mem.axes joy.axes self.angular_ with
      | none => ⟨self, [], Status.fault⟩
      | some az =>
        let self := { self with cmd := { self.cmd with angular := { self.cmd.angular with
          z := az * self.a_scale_ } } }
        let out := [Effect.publish self.cmd]
        match read mem.buttons joy.buttons self.head_down_ with
        | none => ⟨self, out, Status.fault⟩
        | some down =>
          if down = 1 then callHead srv self out HeadPosition.DOWN
          else
            match read mem.buttons joy.buttons self.head_mid_ with
            | none => ⟨self, out, Status.fault⟩
            | some mid =>
              if mid = 1 then callHead srv self out HeadPosition.MID
              else
                match read mem.buttons joy.buttons self.head_up_ with
                | none => ⟨self, out, Status.fault⟩
                | some up =>
                  if up = 1 then callHead srv self out HeadPosition.UP
                  else ⟨self, out, Status.returned⟩

/-- Dispatch loop `ros::spin()` of `main` (lines 151-156): the events are
handed to the handler one at a time, each with the answer the service gives
and the memory that surrounds its arrays during that event; the loop goes on
after every invocation that returns and ends when a faulting read kills the
process. -/
def spin {R : Type} [Mul R] [Zero R] (self : TeleopRovio R) :
    List (Joy R × HeadService × Beyond R) → Run R
  | [] => ⟨self, [], Status.returned⟩
  | (joy, srv, mem) :: rest =>
    let r := joyCallback srv mem self joy
    match r.status with
    | Status.fault => r
    | Status.returned =>
      let r2 := spin r.self rest
      ⟨r2.self, r.out ++ r2.out, r2.status⟩

/-- The object after the six assignments of lines 103-108, the axis reads
having given `ax`, `ay` and `az`. -/
def assigned {R : Type} [Mul R] [Zero R] (self : TeleopRovio R) (ax ay az : R) : TeleopRovio R :=
  { self with cmd :=
      ⟨⟨ax * self.lx_scale_, ay * self.ly_scale_, 0⟩, ⟨0, 0, az * self.a_scale_⟩⟩ }

/-- Lines 112-148 of `joyCallback` on their own, run from the object and the
trace reached after line 109. -/
def headChain {R : Type} (srv : HeadService) (mem : Beyond R) (self : TeleopRovio R)
    (out : List (Effect R)) (buttons : List Int) : Run R :=
  match read mem.buttons buttons self.head_down_ with
  | none => ⟨self, out, Status.fault⟩
  | some down =>
    if down = 1 then callHead srv self out HeadPosition.DOWN
    else
      match read mem.buttons buttons self.head_mid_ with
      | none => ⟨self, out, Status.fault⟩
      | some mid =>
        if mid = 1 then callHead srv self out HeadPosition.MID
        else
          match read mem.buttons buttons self.head_up_ with
          | none => ⟨self, out, Status.fault⟩
          | some up =>
            if up = 1 then callHead srv self out HeadPosition.UP
            else ⟨self, out, Status.returned⟩

/-! ## Observations on the output trace -/

/-- Velocity commands published on `cmd_vel`, in order. -/
def velocityCommands {R : Type} : List (Effect R) → List (Twist R)
  | [] => []
  | Effect.publish c :: rest => c :: velocityCommands rest
  | _ :: rest => velocityCommands rest

/-- Positions requested from the `head_position` service, in order. -/
def headRequests {R : Type} : List (Effect R) → List HeadPosition
  | [] => []
  | Effect.call p :: rest => p :: headRequests rest
  | _ :: rest => headRequests rest

/-- The nine configuration members of the object. -/
def TeleopRovio.config {R : Type} (self : TeleopRovio R) :
    (Int × Int × Int) × (R × R × R) × (Int × Int × Int) :=
  ((self.linearx_, self.lineary_, self.angular_),
   (self.lx_scale_, self.ly_scale_, self.a_scale_),
   (self.head_down_, self.head_mid_, self.head_up_))

/-! ## Vocabulary of the statements -/

/-- What an event holds at index `i` of one of its arrays: the element when `i`
is a position of the array, nothing otherwise.  This is not the access the
code performs (that is `read`); it is used to say what the event contains. -/
def elementAt {α : Type} (v : List α) (i : Int) : Option α :=
  if 0 ≤ i then v[i.toNat]? else none

/-- Selection rule in the words of the spec (section 4.1, step 6): the position
of the first pressed button in the order DOWN, MID, UP, a button being pressed
when the event holds state 1 at its index. -/
def firstPressed {R : Type} (self : TeleopRovio R) (buttons : List Int) : Option HeadPosition :=
  if elementAt buttons self.head_down_ = some 1 then some HeadPosition.DOWN
  else if elementAt buttons self.head_mid_ = some 1 then some HeadPosition.MID
  else if elementAt buttons self.head_up_ = some 1 then some HeadPosition.UP
  else none

/-! ## Sample objects -/

/-- A service record as it may stand before the first call. -/
def sampleHead : Head := ⟨⟨HeadPosition.UP⟩, ⟨0⟩⟩

/-- The object built by the constructor when no parameter is set, over the
rationals. -/
def defaultRovio : TeleopRovio ℚ := TeleopRovio.init Params.unset sampleHead

/-- A service that always fails. -/
def failingService : HeadService := fun _ => none

/-- A service that always answers with status 0. -/
def answeringService : HeadService := fun _ => some 0

/-- Memory in which no address next to the arrays is mapped, so that every read
outside an array faults.  This is what surrounds an array without elements: its
data pointer is null. -/
def unmapped : Beyond ℚ := ⟨fun _ => none, fun _ => none⟩

/-- Memory in which the words next to the arrays are mapped and hold zero, so
that every read outside an array gives 0. -/
def zeroed : Beyond ℚ := ⟨fun _ => some 0, fun _ => some 0⟩

/-! ## Auxiliary facts -/

section Auxiliary
variable {R : Type}

theorem elementAt_eq_none_iff {α : Type} (v : List α) (i : Int) :
    elementAt v i = none ↔ ¬ inBounds v i := by
  unfold elementAt inBounds
  by_cases h : 0 ≤ i
  · simp only [h, if_true, true_and, not_lt, List.getElem?_eq_none_iff]
    omega
  · simp [h]

theorem elementAt_of_inBounds {α : Type} {v : List α} {i : Int} (h : inBounds v i) :
    ∃ a, elementAt v i = some a := by
  cases hv : elementAt v i with
  | none => exact absurd h ((elementAt_eq_none_iff v i).1 hv)
  | some a => exact ⟨a, rfl⟩

theorem inBounds_of_elementAt {α : Type} {v : List α} {i : Int} {a : α}
    (h : elementAt v i = some a) : inBounds v i := by
  by_contra hn
  rw [(elementAt_eq_none_iff v i).2 hn] at h
  cases h

theorem read_of_inBounds {α : Type} (beyond : Int → Option α) {v : List α} {i : Int}
    (h : inBounds v i) : read beyond v i = elementAt v i := by
  unfold read elementAt
  unfold inBounds at h
  rw [if_pos h, if_pos h.1]

theorem read_of_elementAt {α : Type} (beyond : Int → Option α) {v : List α} {i : Int} {a : α}
    (h : elementAt v i = some a) : read beyond v i = some a := by
  rw [read_of_inBounds beyond (inBounds_of_elementAt h), h]

theorem read_of_not_inBounds {α : Type} (beyond : Int → Option α) {v : List α} {i : Int}
    (h : ¬ inBounds v i) : read beyond v i = beyond i := by
  unfold read
  unfold inBounds at h
  rw [if_neg h]

theorem inBounds_of_lt_length {α : Type} (v : List α) (n : Nat) (h : n < v.length) :
    inBounds v (n : Int) := by
  unfold inBounds
  omega

theorem velocityCommands_append (xs ys : List (Effect R)) :
    velocityCommands (xs ++ ys) = velocityCommands xs ++ velocityCommands ys := by
  induction xs with
  | nil => rfl
  | cons e rest ih => cases e <;> simp [velocityCommands, ih]

theorem headRequests_append (xs ys : List (Effect R)) :
    headRequests (xs ++ ys) = headRequests xs ++ headRequests ys := by
  induction xs with
  | nil => rfl
  | cons e rest ih => cases e <;> simp [headRequests, ih]

theorem callHead_status (srv : HeadService) (self : TeleopRovio R) (out : List (Effect R))
    (p : HeadPosition) : (callHead srv self out p).status = Status.returned := by
  unfold callHead
  cases srv p <;> rfl

theorem callHead_config (srv : HeadService) (self : TeleopRovio R) (out : List (Effect R))
    (p : HeadPosition) : (callHead srv self out p).self.config = self.config := by
  unfold callHead
  cases srv p <;> rfl

theorem callHead_velocityCommands (srv : HeadService) (self : TeleopRovio R)
    (out : List (Effect R)) (p : HeadPosition) :
    velocityCommands (callHead srv self out p).out = velocityCommands out := by
  unfold callHead
  cases srv p <;> simp [velocityCommands_append, velocityCommands]

theorem callHead_headRequests (srv : HeadService) (self : TeleopRovio R)
    (out : List (Effect R)) (p : HeadPosition) :
    headRequests (callHead srv self out p).out = headRequests out ++ [p] := by
  unfold callHead
  cases srv p <;> simp [headRequests_append, headRequests]

theorem callHead_out_of_failure (srv : HeadService) (self : TeleopRovio R)
    (out : List (Effect R)) (p : HeadPosition) (h : srv p = none) :
    (callHead srv self out p).out = out ++ [Effect.call p, Effect.logError] := by
  unfold callHead
  rw [h]

theorem callHead_out_of_success (srv : HeadService) (self : TeleopRovio R)
    (out : List (Effect R)) (p : HeadPosition) (status : Int) (h : srv p = some status) :
    (callHead srv self out p).out = out ++ [Effect.call p, Effect.logInfo status] := by
  unfold callHead
  rw [h]

theorem joyCallback_eq_headChain [Mul R] [Zero R] (srv : HeadService) (mem : Beyond R)
    (self : TeleopRovio R) (joy : Joy R) (ax ay az : R)
    (hx : read mem.axes joy.axes self.linearx_ = some ax)
    (hy : read mem.axes joy.axes self.lineary_ = some ay)
    (hz : read mem.axes joy.axes self.angular_ = some az) :
    joyCallback srv mem self joy =
      headChain srv mem (assigned self ax ay az) [Effect.publish (assigned self ax ay az).cmd]
        joy.buttons := by
  unfold joyCallback
  simp only [hx, hy, hz]
  rfl

theorem joyCallback_axis_fault [Mul R] [Zero R] (srv : HeadService) (mem : Beyond R)
    (self : TeleopRovio R) (joy : Joy R)
    (h : read mem.axes joy.axes self.linearx_ = none ∨
      read mem.axes joy.axes self.lineary_ = none ∨
      read mem.axes joy.axes self.angular_ = none) :
    (joyCallback srv mem self joy).out = [] ∧
      (joyCallback srv mem self joy).status = Status.fault := by
  cases hx : read mem.axes joy.axes self.linearx_ with
  | none => unfold joyCallback; simp [hx]
  | some ax =>
    cases hy : read mem.axes joy.axes self.lineary_ with
    | none => unfold joyCallback; simp [hx, hy]
    | some ay =>
      cases hz : read mem.axes joy.axes self.angular_ with
      | none => unfold joyCallback; simp [hx, hy, hz]
      | some az =>
        exfalso
        rcases h with h | h | h
        · rw [h] at hx; cases hx
        · rw [h] at hy; cases hy
        · rw [h] at hz; cases hz

theorem axis_reads_cases (mem : Beyond R) (self : TeleopRovio R) (joy : Joy R) :
    (∃ ax ay az : R, read mem.axes joy.axes self.linearx_ = some ax ∧
      read mem.axes joy.axes self.lineary_ = some ay ∧
      read mem.axes joy.axes self.angular_ = some az) ∨
    (read mem.axes joy.axes self.linearx_ = none ∨
      read mem.axes joy.axes self.lineary_ = none ∨
      read mem.axes joy.axes self.angular_ = none) := by
  cases hx : read mem.axes joy.axes self.linearx_ with
  | none => exact Or.inr (Or.inl rfl)
  | some ax =>
    cases hy : read mem.axes joy.axes self.lineary_ with
    | none => exact Or.inr (Or.inr (Or.inl rfl))
    | some ay =>
      cases hz : read mem.axes joy.axes self.angular_ with
      | none => exact Or.inr (Or.inr (Or.inr rfl))
      | some az => exact Or.inl ⟨ax, ay, az, rfl, rfl, rfl⟩

theorem axis_reads_of_inBounds (mem : Beyond R) (self : TeleopRovio R) (joy : Joy R)
    (hx : inBounds joy.axes self.linearx_) (hy : inBounds joy.axes self.lineary_)
    (hz : inBounds joy.axes self.angular_) :
    ∃ ax ay az : R, read mem.axes joy.axes self.linearx_ = some ax ∧
      read mem.axes joy.axes self.lineary_ = some ay ∧
      read mem.axes joy.axes self.angular_ = some az := by
  obtain ⟨ax, hx⟩ := elementAt_of_inBounds hx
  obtain ⟨ay, hy⟩ := elementAt_of_inBounds hy
  obtain ⟨az, hz⟩ := elementAt_of_inBounds hz
  exact ⟨ax, ay, az, read_of_elementAt _ hx, read_of_elementAt _ hy, read_of_elementAt _ hz⟩

theorem headChain_velocityCommands (srv : HeadService) (mem : Beyond R) (self : TeleopRovio R)
    (out : List (Effect R)) (buttons : List Int) :
    velocityCommands (headChain srv mem self out buttons).out = velocityCommands out := by
  unfold headChain
  split
  · rfl
  · split
    · exact callHead_velocityCommands _ _ _ _
    · split
      · rfl
      · split
        · exact callHead_velocityCommands _ _ _ _
        · split
          · rfl
          · split
            · exact callHead_velocityCommands _ _ _ _
            · rfl

theorem headChain_config (srv : HeadService) (mem : Beyond R) (self : TeleopRovio R)
    (out : List (Effect R)) (buttons : List Int) :
    (headChain srv mem self out buttons).self.config = self.config := by
  unfold headChain
  split
  · rfl
  · split
    · exact callHead_config _ _ _ _
    · split
      · rfl
      · split
        · exact callHead_config _ _ _ _
        · split
          · rfl
          · split
            · exact callHead_config _ _ _ _
            · rfl

theorem headChain_of_down (srv : HeadService) (mem : Beyond R) (self : TeleopRovio R)
    (out : List (Effect R)) (buttons : List Int)
    (hd : read mem.buttons buttons self.head_down_ = some 1) :
    headChain srv mem self out buttons = callHead srv self out HeadPosition.DOWN := by
  unfold headChain
  simp [hd]

theorem headChain_of_mid (srv : HeadService) (mem : Beyond R) (self : TeleopRovio R)
    (out : List (Effect R)) (buttons : List Int) (d : Int)
    (hd : read mem.buttons buttons self.head_down_ = some d) (hd1 : d ≠ 1)
    (hm : read mem.buttons buttons self.head_mid_ = some 1) :
    headChain srv mem self out buttons = callHead srv self out HeadPosition.MID := by
  unfold headChain
  simp [hd, hd1, hm]

theorem headChain_of_up (srv : HeadService) (mem : Beyond R) (self : TeleopRovio R)
    (out : List (Effect R)) (buttons : List Int) (d m : Int)
    (hd : read mem.buttons buttons self.head_down_ = some d) (hd1 : d ≠ 1)
    (hm : read mem.buttons buttons self.head_mid_ = some m) (hm1 : m ≠ 1)
    (hu : read mem.buttons buttons self.head_up_ = some 1) :
    headChain srv mem self out buttons = callHead srv self out HeadPosition.UP := by
  unfold headChain
  simp [hd, hd1, hm, hm1, hu]

theorem headChain_of_none_read_one (srv : HeadService) (mem : Beyond R) (self : TeleopRovio R)
    (out : List (Effect R)) (buttons : List Int)
    (hd : read mem.buttons buttons self.head_down_ ≠ some 1)
    (hm : read mem.buttons buttons self.head_mid_ ≠ some 1)
    (hu : read mem.buttons buttons self.head_up_ ≠ some 1) :
    (headChain srv mem self out buttons).out = out := by
  unfold headChain
  split
  · rfl
  · rename_i down hdown
    have h1 : down ≠ 1 := fun h => hd (by rw [hdown, h])
    rw [if_neg h1]
    split
    · rfl
    · rename_i mid hmid
      have h2 : mid ≠ 1 := fun h => hm (by rw [hmid, h])
      rw [if_neg h2]
      split
      · rfl
      · rename_i up hup
        have h3 : up ≠ 1 := fun h => hu (by rw [hup, h])
        rw [if_neg h3]

theorem headChain_headRequests_length (srv : HeadService) (mem : Beyond R)
    (self : TeleopRovio R) (out : List (Effect R)) (buttons : List Int) :
    (headRequests (headChain srv mem self out buttons).out).length ≤
      (headRequests out).length + 1 := by
  unfold headChain
  split
  · simp
  · split
    · simp [callHead_headRequests]
    · split
      · simp
      · split
        · simp [callHead_headRequests]
        · split
          · simp
          · split
            · simp [callHead_headRequests]
            · simp

theorem headChain_eq_of_inBounds (srv : HeadService) (mem other : Beyond R)
    (self : TeleopRovio R) (out : List (Effect R)) (buttons : List Int)
    (hd : inBounds buttons self.head_down_) (hm : inBounds buttons self.head_mid_)
    (hu : inBounds buttons self.head_up_) :
    headChain srv mem self out buttons = headChain srv other self out buttons := by
  unfold headChain
  simp only [read_of_inBounds _ hd, read_of_inBounds _ hm, read_of_inBounds _ hu]

theorem headChain_returned_of_inBounds (srv : HeadService) (mem : Beyond R)
    (self : TeleopRovio R) (out : List (Effect R)) (buttons : List Int)
    (hd : inBounds buttons self.head_down_) (hm : inBounds buttons self.head_mid_)
    (hu : inBounds buttons self.head_up_) :
    (headChain srv mem self out buttons).status = Status.returned := by
  obtain ⟨d, hd2⟩ := elementAt_of_inBounds hd
  obtain ⟨m, hm2⟩ := elementAt_of_inBounds hm
  obtain ⟨u, hu2⟩ := elementAt_of_inBounds hu
  unfold headChain
  simp only [read_of_elementAt _ hd2, read_of_elementAt _ hm2, read_of_elementAt _ hu2]
  split
  · exact callHead_status _ _ _ _
  · split
    · exact callHead_status _ _ _ _
    · split
      · exact callHead_status _ _ _ _
      · rfl

theorem headChain_headRequests_of_inBounds (srv : HeadService) (mem : Beyond R)
    (self : TeleopRovio R) (out : List (Effect R)) (buttons : List Int)
    (hout : headRequests out = [])
    (hd : inBounds buttons self.head_down_) (hm : inBounds buttons self.head_mid_)
    (hu : inBounds buttons self.head_up_) :
    headRequests (headChain srv mem self out buttons).out =
      (firstPressed self buttons).toList := by
  obtain ⟨d, hd2⟩ := elementAt_of_inBounds hd
  obtain ⟨m, hm2⟩ := elementAt_of_inBounds hm
  obtain ⟨u, hu2⟩ := elementAt_of_inBounds hu
  unfold headChain firstPressed
  simp only [read_of_elementAt _ hd2, read_of_elementAt _ hm2, read_of_elementAt _ hu2,
    hd2, hm2, hu2, Option.some.injEq]
  split_ifs <;> simp [callHead_headRequests, hout]

theorem joyCallback_headRequests_length [Mul R] [Zero R] (srv : HeadService) (mem : Beyond R)
    (self : TeleopRovio R) (joy : Joy R) :
    (headRequests (joyCallback srv mem self joy).out).length ≤ 1 := by
  rcases axis_reads_cases mem self joy with ⟨ax, ay, az, hx, hy, hz⟩ | hf
  · rw [joyCallback_eq_headChain srv mem self joy ax ay az hx hy hz]
    exact headChain_headRequests_length _ _ _ _ _
  · rw [(joyCallback_axis_fault srv mem self joy hf).1]
    simp [headRequests]

theorem joyCallback_velocityCommands_length [Mul R] [Zero R] (srv : HeadService)
    (mem : Beyond R) (self : TeleopRovio R) (joy : Joy R) :
    (velocityCommands (joyCallback srv mem self joy).out).length ≤ 1 := by
  rcases axis_reads_cases mem self joy with ⟨ax, ay, az, hx, hy, hz⟩ | hf
  · rw [joyCallback_eq_headChain srv mem self joy ax ay az hx hy hz,
      headChain_velocityCommands]
    simp [velocityCommands]
  · rw [(joyCallback_axis_fault srv mem self joy hf).1]
    simp [velocityCommands]

theorem joyCallback_no_request [Mul R] [Zero R] (srv : HeadService) (mem : Beyond R)
    (self : TeleopRovio R) (joy : Joy R)
    (hd : read mem.buttons joy.buttons self.head_down_ ≠ some 1)
    (hm : read mem.buttons joy.buttons self.head_mid_ ≠ some 1)
    (hu : read mem.buttons joy.buttons self.head_up_ ≠ some 1) :
    headRequests (joyCallback srv mem self joy).out = [] := by
  rcases axis_reads_cases mem self joy with ⟨ax, ay, az, hx, hy, hz⟩ | hf
  · rw [joyCallback_eq_headChain srv mem self joy ax ay az hx hy hz,
      headChain_of_none_read_one srv mem (assigned self ax ay az) _ joy.buttons hd hm hu]
    rfl
  · rw [(joyCallback_axis_fault srv mem self joy hf).1]
    rfl

theorem read_ne_one_of_elementAt (beyond : Int → Option Int) {v : List Int} {i d : Int}
    (h : elementAt v i = some d) (hd : d ≠ 1) : read beyond v i ≠ some 1 := by
  rw [read_of_elementAt beyond h]
  intro e
  exact hd (Option.some.inj e)

theorem default_config_fields [Zero R] [One R] [Neg R] (self : TeleopRovio R) (head0 : Head)
    (h : self.config = (TeleopRovio.init Params.unset head0 : TeleopRovio R).config) :
    (self.linearx_ = 1 ∧ self.lineary_ = 0 ∧ self.angular_ = 2) ∧
    (self.lx_scale_ = 1 ∧ self.ly_scale_ = -1 ∧ self.a_scale_ = -1) ∧
    (self.head_down_ = 1 ∧ self.head_mid_ = 2 ∧ self.head_up_ = 3) := by
  simp only [TeleopRovio.config, TeleopRovio.init, Params.unset, param, Prod.mk.injEq] at h
  exact h

theorem config_fields (s s' : TeleopRovio R) (h : s'.config = s.config) :
    (s'.linearx_ = s.linearx_ ∧ s'.lineary_ = s.lineary_ ∧ s'.angular_ = s.angular_) ∧
    (s'.lx_scale_ = s.lx_scale_ ∧ s'.ly_scale_ = s.ly_scale_ ∧ s'.a_scale_ = s.a_scale_) ∧
    (s'.head_down_ = s.head_down_ ∧ s'.head_mid_ = s.head_mid_ ∧ s'.head_up_ = s.head_up_) := by
  simp only [TeleopRovio.config, Prod.mk.injEq] at h
  exact h

theorem eq_of_config_eq (s s' : TeleopRovio R) (h : s'.config = s.config) :
    s' = { s with cmd := s'.cmd, head_srv_ := s'.head_srv_ } := by
  obtain ⟨⟨h1, h2, h3⟩, ⟨h4, h5, h6⟩, ⟨h7, h8, h9⟩⟩ := config_fields s s' h
  cases s
  cases s'
  simp_all

theorem spin_cons_of_returned [Mul R] [Zero R] (self : TeleopRovio R) (joy : Joy R)
    (srv : HeadService) (mem : Beyond R) (rest : List (Joy R × HeadService × Beyond R))
    (h : (joyCallback srv mem self joy).status = Status.returned) :
    spin self ((joy, srv, mem) :: rest) =
      ⟨(spin (joyCallback srv mem self joy).self rest).self,
        (joyCallback srv mem self joy).out ++ (spin (joyCallback srv mem self joy).self rest).out,
        (spin (joyCallback srv mem self joy).self rest).status⟩ := by
  rw [spin]
  simp only [h]

theorem spin_cons_of_fault [Mul R] [Zero R] (self : TeleopRovio R) (joy : Joy R)
    (srv : HeadService) (mem : Beyond R) (rest : List (Joy R × HeadService × Beyond R))
    (h : (joyCallback srv mem self joy).status = Status.fault) :
    spin self ((joy, srv, mem) :: rest) = joyCallback srv mem self joy := by
  rw [spin]
  simp only [h]

theorem joyCallback_config [Mul R] [Zero R] (srv : HeadService) (mem : Beyond R)
    (self : TeleopRovio R) (joy : Joy R) :
    (joyCallback srv mem self joy).self.config = self.config := by
  cases hx : read mem.axes joy.axes self.linearx_ with
  | none => unfold joyCallback; simp [hx]
  | some ax =>
    cases hy : read mem.axes joy.axes self.lineary_ with
    | none => unfold joyCallback; simp [hx, hy, TeleopRovio.config]
    | some ay =>
      cases hz : read mem.axes joy.axes self.angular_ with
      | none => unfold joyCallback; simp [hx, hy, hz, TeleopRovio.config]
      | some az =>
        rw [joyCallback_eq_headChain srv mem self joy ax ay az hx hy hz,
          headChain_config srv mem (assigned self ax ay az) _ joy.buttons]
        rfl

theorem spin_config [Mul R] [Zero R] (events : List (Joy R × HeadService × Beyond R)) :
    ∀ self : TeleopRovio R, (spin self events).self.config = self.config := by
  induction events with
  | nil => intro self; rfl
  | cons e rest ih =>
    intro self
    obtain ⟨joy, srv, mem⟩ := e
    cases hst : (joyCallback srv mem self joy).status with
    | fault =>
      rw [spin_cons_of_fault self joy srv mem rest hst]
      exact joyCallback_config srv mem self joy
    | returned =>
      rw [spin_cons_of_returned self joy srv mem rest hst]
      show (spin (joyCallback srv mem self joy).self rest).self.config = self.config
      rw [ih, joyCallback_config]

theorem headChain_out_congr (srv : HeadService) (mem : Beyond R) (s s' : TeleopRovio R)
    (out : List (Effect R)) (b : List Int)
    (h1 : s'.head_down_ = s.head_down_) (h2 : s'.head_mid_ = s.head_mid_)
    (h3 : s'.head_up_ = s.head_up_) :
    (headChain srv mem s' out b).out = (headChain srv mem s out b).out := by
  unfold headChain callHead
  rw [h1, h2, h3]
  repeat' split
  all_goals simp_all

/-- On an event whose arrays contain the six configured indices the handler
returns, and what it emits and requests is fixed by the configuration and the
event alone. -/
theorem joyCallback_of_inBounds [Mul R] [Zero R] (srv : HeadService) (mem : Beyond R)
    (self : TeleopRovio R) (joy : Joy R)
    (hx : inBounds joy.axes self.linearx_) (hy : inBounds joy.axes self.lineary_)
    (hz : inBounds joy.axes self.angular_) (hd : inBounds joy.buttons self.head_down_)
    (hm : inBounds joy.buttons self.head_mid_) (hu : inBounds joy.buttons self.head_up_) :
    ∃ ax ay az : R, elementAt joy.axes self.linearx_ = some ax ∧
      elementAt joy.axes self.lineary_ = some ay ∧ elementAt joy.axes self.angular_ = some az ∧
      (joyCallback srv mem self joy).status = Status.returned ∧
      velocityCommands (joyCallback srv mem self joy).out =
        [⟨⟨ax * self.lx_scale_, ay * self.ly_scale_, 0⟩, ⟨0, 0, az * self.a_scale_⟩⟩] ∧
      headRequests (joyCallback srv mem self joy).out = (firstPressed self joy.buttons).toList := by
  obtain ⟨ax, hx⟩ := elementAt_of_inBounds hx
  obtain ⟨ay, hy⟩ := elementAt_of_inBounds hy
  obtain ⟨az, hz⟩ := elementAt_of_inBounds hz
  have e := joyCallback_eq_headChain srv mem self joy ax ay az (read_of_elementAt _ hx)
    (read_of_elementAt _ hy) (read_of_elementAt _ hz)
  refine ⟨ax, ay, az, hx, hy, hz, ?_, ?_, ?_⟩
  · rw [e]
    exact headChain_returned_of_inBounds srv mem (assigned self ax ay az) _ joy.buttons hd hm hu
  · rw [e, headChain_velocityCommands]
    rfl
  · rw [e]
    exact headChain_headRequests_of_inBounds srv mem (assigned self ax ay az) _ joy.buttons rfl
      hd hm hu

theorem joyCallback_out_congr [Mul R] [Zero R] (srv : HeadService) (mem mem' : Beyond R)
    (s s' : TeleopRovio R) (joy : Joy R) (h : s'.config = s.config)
    (hx : inBounds joy.axes s.linearx_) (hy : inBounds joy.axes s.lineary_)
    (hz : inBounds joy.axes s.angular_) (hd : inBounds joy.buttons s.head_down_)
    (hm : inBounds joy.buttons s.head_mid_) (hu : inBounds joy.buttons s.head_up_) :
    (joyCallback srv mem' s' joy).out = (joyCallback srv mem s joy).out := by
  obtain ⟨⟨h1, h2, h3⟩, ⟨h4, h5, h6⟩, ⟨h7, h8, h9⟩⟩ := config_fields s s' h
  obtain ⟨ax, hx⟩ := elementAt_of_inBounds hx
  obtain ⟨ay, hy⟩ := elementAt_of_inBounds hy
  obtain ⟨az, hz⟩ := elementAt_of_inBounds hz
  have hcmd : (assigned s' ax ay az).cmd = (assigned s ax ay az).cmd := by
    simp only [assigned, h4, h5, h6]
  rw [joyCallback_eq_headChain srv mem s joy ax ay az (read_of_elementAt _ hx)
      (read_of_elementAt _ hy) (read_of_elementAt _ hz),
    joyCallback_eq_headChain srv mem' s' joy ax ay az (by rw [h1]; exact read_of_elementAt _ hx)
      (by rw [h2]; exact read_of_elementAt _ hy) (by rw [h3]; exact read_of_elementAt _ hz),
    hcmd, headChain_out_congr srv mem' (assigned s ax ay az) (assigned s' ax ay az) _ joy.buttons
      h7 h8 h9,
    headChain_eq_of_inBounds srv mem' mem (assigned s ax ay az) _ joy.buttons hd hm hu]

theorem firstPressed_congr (s s' : TeleopRovio R) (buttons : List Int)
    (h : s'.config = s.config) : firstPressed s' buttons = firstPressed s buttons := by
  obtain ⟨-, -, ⟨h7, h8, h9⟩⟩ := config_fields s s' h
  unfold firstPressed
  rw [h7, h8, h9]

theorem firstPressed_isSome_of_pressed (self : TeleopRovio R) (buttons : List Int)
    (h : elementAt buttons self.head_down_ = some 1 ∨ elementAt buttons self.head_mid_ = some 1 ∨
      elementAt buttons self.head_up_ = some 1) :
    ∃ p, firstPressed self buttons = some p := by
  unfold firstPressed
  split_ifs with h1 h2 h3
  · exact ⟨_, rfl⟩
  · exact ⟨_, rfl⟩
  · exact ⟨_, rfl⟩
  · tauto

theorem spin_pair [Mul R] [Zero R] (self : TeleopRovio R) (joy : Joy R)
    (srv1 srv2 : HeadService) (mem1 mem2 : Beyond R)
    (h1 : (joyCallback srv1 mem1 self joy).status = Status.returned)
    (h2 : (joyCallback srv2 mem2 (joyCallback srv1 mem1 self joy).self joy).status =
      Status.returned) :
    (spin self [(joy, srv1, mem1), (joy, srv2, mem2)]).out =
      (joyCallback srv1 mem1 self joy).out ++
        (joyCallback srv2 mem2 (joyCallback srv1 mem1 self joy).self joy).out := by
  rw [spin_cons_of_returned self joy srv1 mem1 _ h1]
  show (joyCallback srv1 mem1 self joy).out ++
    (spin (joyCallback srv1 mem1 self joy).self [(joy, srv2, mem2)]).out = _
  rw [spin_cons_of_returned _ joy srv2 mem2 _ h2]
  show (joyCallback srv1 mem1 self joy).out ++
    ((joyCallback srv2 mem2 (joyCallback srv1 mem1 self joy).self joy).out ++ []) = _
  rw [List.append_nil]

theorem elementAt_map {α β : Type} (f : α → β) (v : List α) (i : Int) :
    elementAt (v.map f) i = (elementAt v i).map f := by
  unfold elementAt
  split
  · simp [List.getElem?_map]
  · rfl

theorem read_congr_of_map_eq (beyond : Int → Option Int) (b b' : List Int) (i : Int)
    (h : b'.map (fun x => decide (x = 1)) = b.map (fun x => decide (x = 1))) :
    (read beyond b' i).map (fun x => decide (x = 1)) =
      (read beyond b i).map (fun x => decide (x = 1)) := by
  have hlen : b'.length = b.length := by
    have := congrArg List.length h
    simpa using this
  by_cases hb : inBounds b i
  · have hb' : inBounds b' i := by
      unfold inBounds at hb ⊢
      rw [hlen]; exact hb
    rw [read_of_inBounds _ hb, read_of_inBounds _ hb', ← elementAt_map, ← elementAt_map, h]
  · have hb' : ¬ inBounds b' i := by
      unfold inBounds at hb ⊢
      rw [hlen]; exact hb
    rw [read_of_not_inBounds _ hb, read_of_not_inBounds _ hb']

theorem headChain_buttons_congr (srv : HeadService) (mem : Beyond R) (s : TeleopRovio R)
    (out : List (Effect R)) (b b' : List Int)
    (h : b'.map (fun x => decide (x = 1)) = b.map (fun x => decide (x = 1))) :
    headChain srv mem s out b' = headChain srv mem s out b := by
  have e1 := read_congr_of_map_eq mem.buttons b b' s.head_down_ h
  have e2 := read_congr_of_map_eq mem.buttons b b' s.head_mid_ h
  have e3 := read_congr_of_map_eq mem.buttons b b' s.head_up_ h
  unfold headChain
  revert e1 e2 e3
  cases read mem.buttons b s.head_down_ <;> cases read mem.buttons b' s.head_down_ <;>
    cases read mem.buttons b s.head_mid_ <;> cases read mem.buttons b' s.head_mid_ <;>
    cases read mem.buttons b s.head_up_ <;> cases read mem.buttons b' s.head_up_ <;>
    simp <;> intros <;> split_ifs <;> simp_all

theorem joyCallback_buttons_congr [Mul R] [Zero R] (srv : HeadService) (mem : Beyond R)
    (self : TeleopRovio R) (joy joy' : Joy R) (ha : joy'.axes = joy.axes)
    (h : joy'.buttons.map (fun x => decide (x = 1)) = joy.buttons.map (fun x => decide (x = 1))) :
    joyCallback srv mem self joy' = joyCallback srv mem self joy := by
  cases hx : read mem.axes joy.axes self.linearx_ with
  | none => unfold joyCallback; simp [hx, ha]
  | some ax =>
    cases hy : read mem.axes joy.axes self.lineary_ with
    | none => unfold joyCallback; simp [hx, hy, ha]
    | some ay =>
      cases hz : read mem.axes joy.axes self.angular_ with
      | none => unfold joyCallback; simp [hx, hy, hz, ha]
      | some az =>
        rw [joyCallback_eq_headChain srv mem self joy ax ay az hx hy hz,
          joyCallback_eq_headChain srv mem self joy' ax ay az (by rw [ha]; exact hx)
            (by rw [ha]; exact hy) (by rw [ha]; exact hz)]
        exact headChain_buttons_congr srv mem _ _ _ _ h

end Auxiliary

/-! ## Velocity command -/

section Claims
variable {R : Type}

/-- C1: when the three configured axis indices are positions of the axes array
of the event, the handler emits the velocity command with
`linear.x = axes[linearx_] * lx_scale_`, `linear.y = axes[lineary_] * ly_scale_`,
`angular.z = axes[angular_] * a_scale_` and `linear.z = angular.x = angular.y = 0`,
whatever the previous contents of `cmd`, the button states, the answer of the
service and the memory around the arrays. -/
theorem joyCallback_velocity_command [Mul R] [Zero R] (srv : HeadService) (mem : Beyond R)
    (self : TeleopRovio R) (joy : Joy R) (ax ay az : R)
    (hx : elementAt joy.axes self.linearx_ = some ax)
    (hy : elementAt joy.axes self.lineary_ = some ay)
    (hz : elementAt joy.axes self.angular_ = some az) :
    velocityCommands (joyCallback srv mem self joy).out =
      [⟨⟨ax * self.lx_scale_, ay * self.ly_scale_, 0⟩, ⟨0, 0, az * self.a_scale_⟩⟩] := by
  rw [joyCallback_eq_headChain srv mem self joy ax ay az (read_of_elementAt _ hx)
    (read_of_elementAt _ hy) (read_of_elementAt _ hz), headChain_velocityCommands]
  rfl

/-- Instance of C1: default object, three axes, the DOWN button pressed and a
failing service. -/
theorem joyCallback_velocity_command_witness :
    velocityCommands
        (joyCallback failingService zeroed defaultRovio
          ⟨[1 / 2, 4 / 5, -3 / 10], [0, 1, 0, 0]⟩).out =
      [⟨⟨4 / 5 * defaultRovio.lx_scale_, 1 / 2 * defaultRovio.ly_scale_, 0⟩,
        ⟨0, 0, -3 / 10 * defaultRovio.a_scale_⟩⟩] :=
  joyCallback_velocity_command failingService zeroed defaultRovio
    ⟨[1 / 2, 4 / 5, -3 / 10], [0, 1, 0, 0]⟩ (4 / 5) (1 / 2) (-3 / 10) rfl rfl rfl

/-- Counterexample to C4 as stated: with the default configuration, an event
whose axes array is empty.  The array has no storage, the read `axes[1]` of
line 103 goes through a null data pointer and faults, and no velocity command
is emitted. -/
theorem velocity_command_not_always_emitted :
    ¬ (velocityCommands
        (joyCallback answeringService unmapped defaultRovio ⟨[], [0, 0, 0, 1]⟩).out).length =
      1 := by
  decide

/-- C4 (amended): one invocation never emits more than one velocity command,
and it emits exactly one whenever the three configured axis indices are
positions of the axes array, whatever the axis values, the button states
(button indices outside the array included) and the answer of the service. -/
theorem joyCallback_emits_one_command [Mul R] [Zero R] (srv : HeadService) (mem : Beyond R)
    (self : TeleopRovio R) (joy : Joy R) :
    (velocityCommands (joyCallback srv mem self joy).out).length ≤ 1 ∧
    (inBounds joy.axes self.linearx_ → inBounds joy.axes self.lineary_ →
      inBounds joy.axes self.angular_ →
      (velocityCommands (joyCallback srv mem self joy).out).length = 1) := by
  refine ⟨joyCallback_velocityCommands_length srv mem self joy, ?_⟩
  intro hx hy hz
  obtain ⟨ax, ay, az, hx, hy, hz⟩ := axis_reads_of_inBounds mem self joy hx hy hz
  rw [joyCallback_eq_headChain srv mem self joy ax ay az hx hy hz, headChain_velocityCommands]
  rfl

/-- Instance of C4 (amended): three axes and a button array too short for the
configured button indices, the reads behind it finding zeros; the command is
emitted all the same. -/
theorem joyCallback_emits_one_command_witness :
    (velocityCommands
        (joyCallback answeringService zeroed defaultRovio
          ⟨[1 / 2, 4 / 5, -3 / 10], [0]⟩).out).length = 1 :=
  (joyCallback_emits_one_command answeringService zeroed defaultRovio
    ⟨[1 / 2, 4 / 5, -3 / 10], [0]⟩).2 (by decide) (by decide) (by decide)

/-! ## Unchecked indices -/

/-- Counterexample to C2 as stated: default configuration, an event whose axes
array is empty and whose DOWN and MID buttons are both pressed.  The read
`axes[1]` of line 103 goes through a null data pointer and faults before the
buttons are looked at, and no head position is requested. -/
theorem down_pressed_without_request :
    elementAt [0, 1, 1, 0] defaultRovio.head_down_ = some 1 ∧
    headRequests
        (joyCallback answeringService unmapped defaultRovio ⟨[], [0, 1, 1, 0]⟩).out = [] := by
  decide

/-- C2 (amended): for every configuration and every event the handler issues at
most one head-position request.  When the axes array contains the three
configured axis indices, the position requested is that of the first pressed
button in the order DOWN, MID, UP: DOWN whenever the button at `head_down_` is
pressed (the button at `head_mid_` being pressed too or not), MID when the
state at `head_down_` is not 1 and the button at `head_mid_` is pressed, UP
when the states at `head_down_` and `head_mid_` are not 1 and the button at
`head_up_` is pressed. -/
theorem joyCallback_head_priority [Mul R] [Zero R] (srv : HeadService) (mem : Beyond R)
    (self : TeleopRovio R) (joy : Joy R) :
    (headRequests (joyCallback srv mem self joy).out).length ≤ 1 ∧
    (inBounds joy.axes self.linearx_ → inBounds joy.axes self.lineary_ →
      inBounds joy.axes self.angular_ →
      (elementAt joy.buttons self.head_down_ = some 1 →
        headRequests (joyCallback srv mem self joy).out = [HeadPosition.DOWN]) ∧
      (∀ d : Int, elementAt joy.buttons self.head_down_ = some d → d ≠ 1 →
        elementAt joy.buttons self.head_mid_ = some 1 →
        headRequests (joyCallback srv mem self joy).out = [HeadPosition.MID]) ∧
      (∀ d m : Int, elementAt joy.buttons self.head_down_ = some d → d ≠ 1 →
        elementAt joy.buttons self.head_mid_ = some m → m ≠ 1 →
        elementAt joy.buttons self.head_up_ = some 1 →
        headRequests (joyCallback srv mem self joy).out = [HeadPosition.UP])) := by
  refine ⟨joyCallback_headRequests_length srv mem self joy, ?_⟩
  intro hx hy hz
  obtain ⟨ax, ay, az, hx, hy, hz⟩ := axis_reads_of_inBounds mem self joy hx hy hz
  rw [joyCallback_eq_headChain srv mem self joy ax ay az hx hy hz]
  refine ⟨?_, ?_, ?_⟩
  · intro hd
    rw [headChain_of_down srv mem (assigned self ax ay az) _ joy.buttons
      (read_of_elementAt _ hd), callHead_headRequests]
    rfl
  · intro d hd hd1 hm
    rw [headChain_of_mid srv mem (assigned self ax ay az) _ joy.buttons d
      (read_of_elementAt _ hd) hd1 (read_of_elementAt _ hm), callHead_headRequests]
    rfl
  · intro d m hd hd1 hm hm1 hu
    rw [headChain_of_up srv mem (assigned self ax ay az) _ joy.buttons d m
      (read_of_elementAt _ hd) hd1 (read_of_elementAt _ hm) hm1 (read_of_elementAt _ hu),
      callHead_headRequests]
    rfl

/-- Instance of C2 (amended): default object, three axes, DOWN and MID both
pressed: only DOWN is requested. -/
theorem joyCallback_head_priority_witness :
    headRequests
        (joyCallback answeringService zeroed defaultRovio ⟨[0, 0, 0], [0, 1, 1, 0]⟩).out =
      [HeadPosition.DOWN] :=
  ((joyCallback_head_priority answeringService zeroed defaultRovio
    ⟨[0, 0, 0], [0, 1, 1, 0]⟩).2 (by decide) (by decide) (by decide)).1 (by decide)

/-- Counterexample to C3 as stated: default configuration, an empty axes array
and four released buttons.  The read `axes[1]` of line 103 goes through a null
data pointer and faults, and no velocity command is emitted. -/
theorem unpressed_without_velocity_command :
    elementAt [0, 0, 0, 0] defaultRovio.head_down_ = some 0 ∧
    elementAt [0, 0, 0, 0] defaultRovio.head_mid_ = some 0 ∧
    elementAt [0, 0, 0, 0] defaultRovio.head_up_ = some 0 ∧
    velocityCommands
        (joyCallback answeringService unmapped defaultRovio ⟨[], [0, 0, 0, 0]⟩).out = [] := by
  decide

/-- C3 (amended): when the event holds a state at each of `head_down_`,
`head_mid_` and `head_up_` and none of the three is 1, the handler issues no
head-position request, and when moreover the axes array contains the three
configured axis indices, the velocity command is the one and only thing it
sends out: the service is not called and nothing is logged. -/
theorem joyCallback_unpressed [Mul R] [Zero R] (srv : HeadService) (mem : Beyond R)
    (self : TeleopRovio R) (joy : Joy R) (d m u : Int)
    (hd : elementAt joy.buttons self.head_down_ = some d) (hd1 : d ≠ 1)
    (hm : elementAt joy.buttons self.head_mid_ = some m) (hm1 : m ≠ 1)
    (hu : elementAt joy.buttons self.head_up_ = some u) (hu1 : u ≠ 1) :
    headRequests (joyCallback srv mem self joy).out = [] ∧
    (inBounds joy.axes self.linearx_ → inBounds joy.axes self.lineary_ →
      inBounds joy.axes self.angular_ →
      ∃ c : Twist R, (joyCallback srv mem self joy).out = [Effect.publish c]) := by
  have rd := read_ne_one_of_elementAt mem.buttons hd hd1
  have rm := read_ne_one_of_elementAt mem.buttons hm hm1
  have ru := read_ne_one_of_elementAt mem.buttons hu hu1
  refine ⟨joyCallback_no_request srv mem self joy rd rm ru, ?_⟩
  intro hx hy hz
  obtain ⟨ax, ay, az, hx, hy, hz⟩ := axis_reads_of_inBounds mem self joy hx hy hz
  refine ⟨(assigned self ax ay az).cmd, ?_⟩
  rw [joyCallback_eq_headChain srv mem self joy ax ay az hx hy hz]
  exact headChain_of_none_read_one srv mem (assigned self ax ay az) _ joy.buttons rd rm ru

/-- Instance of C3 (amended): default object, three axes, button states 0, 0, 2
and -1. -/
theorem joyCallback_unpressed_witness :
    headRequests
        (joyCallback answeringService zeroed defaultRovio
          ⟨[1 / 2, 4 / 5, -3 / 10], [0, 0, 2, -1]⟩).out = [] ∧
    ∃ c : Twist ℚ,
      (joyCallback answeringService zeroed defaultRovio
          ⟨[1 / 2, 4 / 5, -3 / 10], [0, 0, 2, -1]⟩).out = [Effect.publish c] :=
  ⟨(joyCallback_unpressed answeringService zeroed defaultRovio
      ⟨[1 / 2, 4 / 5, -3 / 10], [0, 0, 2, -1]⟩ 0 2 (-1)
      (by decide) (by decide) (by decide) (by decide) (by decide) (by decide)).1,
    (joyCallback_unpressed answeringService zeroed defaultRovio
      ⟨[1 / 2, 4 / 5, -3 / 10], [0, 0, 2, -1]⟩ 0 2 (-1)
      (by decide) (by decide) (by decide) (by decide) (by decide) (by decide)).2
      (by decide) (by decide) (by decide)⟩

/-! ## Default configuration -/

/-- Counterexample to C5 as stated: default configuration, an event whose axes
array is empty and whose button at index 1 is pressed.  The read `axes[1]` of
line 103 goes through a null data pointer and faults; nothing is requested and
nothing is reported. -/
theorem default_event_without_down_request :
    elementAt [0, 1, 0, 0] 1 = some 1 ∧
    headRequests
        (joyCallback failingService unmapped defaultRovio ⟨[], [0, 1, 0, 0]⟩).out = [] ∧
    (joyCallback failingService unmapped defaultRovio ⟨[], [0, 1, 0, 0]⟩).status =
      Status.fault := by
  decide

/-- C5 (amended): with the default configuration, for every event with at least
three axes whose button at index 1 equals 1, the handler issues a DOWN request
and returns.  When the call fails, what it has sent out is, in this order, the
velocity command, the one call for DOWN and one error report (when it succeeds,
the status is logged in place of the error); and the dispatch loop goes on with
the events that follow. -/
theorem joyCallback_default_down [Mul R] [Zero R] [One R] [Neg R] (srv : HeadService)
    (mem : Beyond R) (self : TeleopRovio R) (head0 : Head) (joy : Joy R)
    (rest : List (Joy R × HeadService × Beyond R))
    (hcfg : self.config = (TeleopRovio.init Params.unset head0 : TeleopRovio R).config)
    (haxes : 3 ≤ joy.axes.length) (hb : elementAt joy.buttons 1 = some 1) :
    headRequests (joyCallback srv mem self joy).out = [HeadPosition.DOWN] ∧
    (joyCallback srv mem self joy).status = Status.returned ∧
    (srv HeadPosition.DOWN = none →
      ∃ c : Twist R, (joyCallback srv mem self joy).out =
        [Effect.publish c, Effect.call HeadPosition.DOWN, Effect.logError]) ∧
    (∀ status : Int, srv HeadPosition.DOWN = some status →
      ∃ c : Twist R, (joyCallback srv mem self joy).out =
        [Effect.publish c, Effect.call HeadPosition.DOWN, Effect.logInfo status]) ∧
    (spin self ((joy, srv, mem) :: rest)).out =
      (joyCallback srv mem self joy).out ++ (spin (joyCallback srv mem self joy).self rest).out ∧
    (spin self ((joy, srv, mem) :: rest)).status =
      (spin (joyCallback srv mem self joy).self rest).status := by
  obtain ⟨⟨h1, h2, h3⟩, -, ⟨h4, -, -⟩⟩ := default_config_fields self head0 hcfg
  have bx : inBounds joy.axes self.linearx_ := by
    rw [h1]; exact inBounds_of_lt_length joy.axes 1 (by omega)
  have by2 : inBounds joy.axes self.lineary_ := by
    rw [h2]; exact inBounds_of_lt_length joy.axes 0 (by omega)
  have bz : inBounds joy.axes self.angular_ := by
    rw [h3]; exact inBounds_of_lt_length joy.axes 2 (by omega)
  obtain ⟨ax, ay, az, hx, hy, hz⟩ := axis_reads_of_inBounds mem self joy bx by2 bz
  have hd : read mem.buttons joy.buttons self.head_down_ = some 1 := by
    rw [h4]; exact read_of_elementAt _ hb
  have hrun : joyCallback srv mem self joy =
      callHead srv (assigned self ax ay az) [Effect.publish (assigned self ax ay az).cmd]
        HeadPosition.DOWN := by
    rw [joyCallback_eq_headChain srv mem self joy ax ay az hx hy hz]
    exact headChain_of_down _ _ _ _ _ hd
  have hret : (joyCallback srv mem self joy).status = Status.returned := by
    rw [hrun]; exact callHead_status _ _ _ _
  refine ⟨?_, hret, ?_, ?_, ?_, ?_⟩
  · rw [hrun, callHead_headRequests]
    rfl
  · intro hfail
    refine ⟨(assigned self ax ay az).cmd, ?_⟩
    rw [hrun, callHead_out_of_failure _ _ _ _ hfail]
    rfl
  · intro status hok
    refine ⟨(assigned self ax ay az).cmd, ?_⟩
    rw [hrun, callHead_out_of_success _ _ _ _ status hok]
    rfl
  · rw [spin_cons_of_returned self joy srv mem rest hret]
  · rw [spin_cons_of_returned self joy srv mem rest hret]

/-- Instance of C5 (amended): default object, three axes, button 1 pressed, a
failing service and one more event behind. -/
theorem joyCallback_default_down_witness :
    headRequests
        (joyCallback failingService zeroed defaultRovio
          ⟨[1 / 2, 4 / 5, -3 / 10], [0, 1, 0, 0]⟩).out = [HeadPosition.DOWN] ∧
    (joyCallback failingService zeroed defaultRovio
        ⟨[1 / 2, 4 / 5, -3 / 10], [0, 1, 0, 0]⟩).status = Status.returned :=
  ⟨(joyCallback_default_down failingService zeroed defaultRovio sampleHead
      ⟨[1 / 2, 4 / 5, -3 / 10], [0, 1, 0, 0]⟩
      [(⟨[0, 0, 0], [0, 0, 0, 0]⟩, answeringService, zeroed)]
      rfl (by decide) (by decide)).1,
    (joyCallback_default_down failingService zeroed defaultRovio sampleHead
      ⟨[1 / 2, 4 / 5, -3 / 10], [0, 1, 0, 0]⟩
      [(⟨[0, 0, 0], [0, 0, 0, 0]⟩, answeringService, zeroed)]
      rfl (by decide) (by decide)).2.1⟩

/-- C6: the configuration built when no parameter is set has axis indices 1, 0,
2, scales 1, -1, -1 and head buttons 1, 2, 3.  With it, for every event with at
least three axes and at least four buttons the handler returns and the emitted
command has `linear.x = axes[1]`, `linear.y = -axes[0]`, `angular.z = -axes[2]`,
the other three fields being 0; this for every scalar type on which `x * 1 = x`
and `x * (-1) = -x`, and whatever surrounds the arrays in memory.  Over the
rationals, the event with axes 0.5, 0.8, -0.3 and four or more buttons, all 0,
yields `linear.x = 0.8`, `linear.y = -0.5`, `angular.z = 0.3`, nothing else
being sent (no head request). -/
theorem joyCallback_default_mapping :
    (∀ (R : Type) [Zero R] [One R] [Neg R] (head0 : Head),
      (TeleopRovio.init Params.unset head0 : TeleopRovio R).config =
        ((1, 0, 2), (1, -1, -1), (1, 2, 3))) ∧
    (∀ (R : Type) [MulOneClass R] [HasDistribNeg R] [Zero R] (srv : HeadService)
        (mem : Beyond R) (self : TeleopRovio R) (head0 : Head) (a0 a1 a2 : R) (more : List R)
        (buttons : List Int),
      self.config = (TeleopRovio.init Params.unset head0 : TeleopRovio R).config →
      4 ≤ buttons.length →
      velocityCommands (joyCallback srv mem self ⟨a0 :: a1 :: a2 :: more, buttons⟩).out =
          [⟨⟨a1, -a0, 0⟩, ⟨0, 0, -a2⟩⟩] ∧
        (joyCallback srv mem self ⟨a0 :: a1 :: a2 :: more, buttons⟩).status =
          Status.returned) ∧
    (∀ (srv : HeadService) (mem : Beyond ℚ) (self : TeleopRovio ℚ) (head0 : Head) (n : Nat),
      self.config = (TeleopRovio.init Params.unset head0 : TeleopRovio ℚ).config →
      4 ≤ n →
      (joyCallback srv mem self ⟨[1 / 2, 4 / 5, -3 / 10], List.replicate n 0⟩).out =
          [Effect.publish ⟨⟨4 / 5, -1 / 2, 0⟩, ⟨0, 0, 3 / 10⟩⟩] ∧
        headRequests
            (joyCallback srv mem self ⟨[1 / 2, 4 / 5, -3 / 10], List.replicate n 0⟩).out =
          [] ∧
        (joyCallback srv mem self ⟨[1 / 2, 4 / 5, -3 / 10], List.replicate n 0⟩).status =
          Status.returned) := by
  refine ⟨fun R _ _ _ head0 => rfl, ?_, ?_⟩
  · intro R _ _ _ srv mem self head0 a0 a1 a2 more buttons hcfg hlen
    obtain ⟨⟨h1, h2, h3⟩, ⟨h4, h5, h6⟩, ⟨h7, h8, h9⟩⟩ := default_config_fields self head0 hcfg
    have hx : read mem.axes (a0 :: a1 :: a2 :: more) self.linearx_ = some a1 := by
      rw [h1]; exact read_of_elementAt _ (by simp [elementAt])
    have hy : read mem.axes (a0 :: a1 :: a2 :: more) self.lineary_ = some a0 := by
      rw [h2]; exact read_of_elementAt _ (by simp [elementAt])
    have hz : read mem.axes (a0 :: a1 :: a2 :: more) self.angular_ = some a2 := by
      rw [h3]; exact read_of_elementAt _ (by simp [elementAt])
    constructor
    · rw [joyCallback_eq_headChain srv mem self ⟨a0 :: a1 :: a2 :: more, buttons⟩ a1 a0 a2
        hx hy hz, headChain_velocityCommands]
      simp [velocityCommands, assigned, h4, h5, h6]
    · rw [joyCallback_eq_headChain srv mem self ⟨a0 :: a1 :: a2 :: more, buttons⟩ a1 a0 a2
        hx hy hz]
      apply headChain_returned_of_inBounds
      · show inBounds buttons self.head_down_
        rw [h7]; exact inBounds_of_lt_length buttons 1 (by omega)
      · show inBounds buttons self.head_mid_
        rw [h8]; exact inBounds_of_lt_length buttons 2 (by omega)
      · show inBounds buttons self.head_up_
        rw [h9]; exact inBounds_of_lt_length buttons 3 (by omega)
  · intro srv mem self head0 n hcfg hn
    obtain ⟨⟨h1, h2, h3⟩, ⟨h4, h5, h6⟩, ⟨h7, h8, h9⟩⟩ := default_config_fields self head0 hcfg
    have hx : read mem.axes ([1 / 2, 4 / 5, -3 / 10] : List ℚ) self.linearx_ = some (4 / 5) := by
      rw [h1]; exact read_of_elementAt _ (by simp [elementAt])
    have hy : read mem.axes ([1 / 2, 4 / 5, -3 / 10] : List ℚ) self.lineary_ = some (1 / 2) := by
      rw [h2]; exact read_of_elementAt _ (by simp [elementAt])
    have hz : read mem.axes ([1 / 2, 4 / 5, -3 / 10] : List ℚ) self.angular_ =
        some (-3 / 10) := by
      rw [h3]; exact read_of_elementAt _ (by simp [elementAt])
    have hbtn : ∀ k : Nat, k < n →
        read mem.buttons (List.replicate n (0 : Int)) (k : Int) = some 0 := by
      intro k hk
      exact read_of_elementAt _ (by simp [elementAt, hk])
    have hd : read mem.buttons (List.replicate n (0 : Int)) self.head_down_ ≠ some 1 := by
      rw [h7, show (1 : Int) = ((1 : Nat) : Int) from rfl, hbtn 1 (by omega)]; decide
    have hm : read mem.buttons (List.replicate n (0 : Int)) self.head_mid_ ≠ some 1 := by
      rw [h8, show (2 : Int) = ((2 : Nat) : Int) from rfl, hbtn 2 (by omega)]; decide
    have hu : read mem.buttons (List.replicate n (0 : Int)) self.head_up_ ≠ some 1 := by
      rw [h9, show (3 : Int) = ((3 : Nat) : Int) from rfl, hbtn 3 (by omega)]; decide
    have hout : (joyCallback srv mem self ⟨[1 / 2, 4 / 5, -3 / 10], List.replicate n 0⟩).out =
        [Effect.publish ⟨⟨4 / 5, -1 / 2, 0⟩, ⟨0, 0, 3 / 10⟩⟩] := by
      rw [joyCallback_eq_headChain srv mem self ⟨[1 / 2, 4 / 5, -3 / 10], List.replicate n 0⟩
        (4 / 5) (1 / 2) (-3 / 10) hx hy hz,
        headChain_of_none_read_one srv mem (assigned self (4 / 5) (1 / 2) (-3 / 10)) _
          (List.replicate n 0) hd hm hu]
      simp only [assigned, h4, h5, h6]
      norm_num
    refine ⟨hout, ?_, ?_⟩
    · rw [hout]; rfl
    · rw [joyCallback_eq_headChain srv mem self ⟨[1 / 2, 4 / 5, -3 / 10], List.replicate n 0⟩
        (4 / 5) (1 / 2) (-3 / 10) hx hy hz]
      apply headChain_returned_of_inBounds
      · show inBounds (List.replicate n (0 : Int)) self.head_down_
        rw [h7]; exact inBounds_of_lt_length _ 1 (by simp; omega)
      · show inBounds (List.replicate n (0 : Int)) self.head_mid_
        rw [h8]; exact inBounds_of_lt_length _ 2 (by simp; omega)
      · show inBounds (List.replicate n (0 : Int)) self.head_up_
        rw [h9]; exact inBounds_of_lt_length _ 3 (by simp; omega)

/-- Instance of C6: the default object on the event with axes 0.5, 0.8, -0.3 and
four released buttons. -/
theorem joyCallback_default_mapping_witness :
    (joyCallback failingService zeroed defaultRovio
        ⟨[1 / 2, 4 / 5, -3 / 10], List.replicate 4 0⟩).out =
        [Effect.publish ⟨⟨4 / 5, -1 / 2, 0⟩, ⟨0, 0, 3 / 10⟩⟩] ∧
      headRequests
          (joyCallback failingService zeroed defaultRovio
            ⟨[1 / 2, 4 / 5, -3 / 10], List.replicate 4 0⟩).out = [] ∧
      (joyCallback failingService zeroed defaultRovio
          ⟨[1 / 2, 4 / 5, -3 / 10], List.replicate 4 0⟩).status = Status.returned :=
  joyCallback_default_mapping.2.2 failingService zeroed defaultRovio sampleHead 4 rfl
    (by decide)

/-! ## Repeated events and the configuration -/

/-- Counterexample to C7 as stated: default configuration, an event whose axes
array is empty and whose MID button is pressed, dispatched twice in a row.  In
the first invocation the read `axes[1]` of line 103 goes through a null data
pointer and faults, which ends the process: neither a velocity command nor a
head request comes out, instead of two of each. -/
theorem repeated_event_without_output :
    velocityCommands
        (spin defaultRovio
          [(⟨[], [0, 0, 1, 0]⟩, answeringService, unmapped),
            (⟨[], [0, 0, 1, 0]⟩, answeringService, unmapped)]).out = [] ∧
    headRequests
        (spin defaultRovio
          [(⟨[], [0, 0, 1, 0]⟩, answeringService, unmapped),
            (⟨[], [0, 0, 1, 0]⟩, answeringService, unmapped)]).out = [] := by
  decide

/-- C7 (amended): for every configuration, every starting state and every event
whose axes and buttons arrays contain the six configured indices, the handler
returns on the first invocation and on a second one with the same event,
whatever the service answers and whatever surrounds the arrays; the two
invocations emit the same single velocity command and request the same head
positions; when a configured button is pressed each of the two issues the
request (nothing is deduplicated); and the second invocation sends out the same
from any other state that has the same configuration, so nothing it sends
depends on what the first left in `cmd` and `head_srv_`. -/
theorem joyCallback_repeat [Mul R] [Zero R] (srv1 srv2 : HeadService) (mem1 mem2 : Beyond R)
    (self : TeleopRovio R) (joy : Joy R)
    (hx : inBounds joy.axes self.linearx_) (hy : inBounds joy.axes self.lineary_)
    (hz : inBounds joy.axes self.angular_) (hd : inBounds joy.buttons self.head_down_)
    (hm : inBounds joy.buttons self.head_mid_) (hu : inBounds joy.buttons self.head_up_) :
    (joyCallback srv1 mem1 self joy).status = Status.returned ∧
    (joyCallback srv2 mem2 (joyCallback srv1 mem1 self joy).self joy).status =
      Status.returned ∧
    (∃ c : Twist R,
      velocityCommands (joyCallback srv1 mem1 self joy).out = [c] ∧
      velocityCommands (joyCallback srv2 mem2 (joyCallback srv1 mem1 self joy).self joy).out =
        [c] ∧
      velocityCommands (spin self [(joy, srv1, mem1), (joy, srv2, mem2)]).out = [c, c]) ∧
    headRequests (joyCallback srv2 mem2 (joyCallback srv1 mem1 self joy).self joy).out =
      headRequests (joyCallback srv1 mem1 self joy).out ∧
    ((elementAt joy.buttons self.head_down_ = some 1 ∨
        elementAt joy.buttons self.head_mid_ = some 1 ∨
        elementAt joy.buttons self.head_up_ = some 1) →
      ∃ p : HeadPosition,
        headRequests (joyCallback srv1 mem1 self joy).out = [p] ∧
        headRequests (joyCallback srv2 mem2 (joyCallback srv1 mem1 self joy).self joy).out =
          [p] ∧
        headRequests (spin self [(joy, srv1, mem1), (joy, srv2, mem2)]).out = [p, p]) ∧
    (∀ (other : TeleopRovio R) (mem : Beyond R), other.config = self.config →
      (joyCallback srv2 mem other joy).out =
        (joyCallback srv2 mem2 (joyCallback srv1 mem1 self joy).self joy).out) := by
  have hcfg := joyCallback_config srv1 mem1 self joy
  obtain ⟨⟨c1, c2, c3⟩, ⟨c4, c5, c6⟩, ⟨c7, c8, c9⟩⟩ :=
    config_fields self (joyCallback srv1 mem1 self joy).self hcfg
  obtain ⟨ax, ay, az, ex, ey, ez, hret1, hv1, hr1⟩ :=
    joyCallback_of_inBounds srv1 mem1 self joy hx hy hz hd hm hu
  obtain ⟨bx, by2, bz, fx, fy, fz, hret2, hv2, hr2⟩ :=
    joyCallback_of_inBounds srv2 mem2 (joyCallback srv1 mem1 self joy).self joy
      (by rw [c1]; exact hx) (by rw [c2]; exact hy) (by rw [c3]; exact hz)
      (by rw [c7]; exact hd) (by rw [c8]; exact hm) (by rw [c9]; exact hu)
  rw [c1, ex] at fx
  rw [c2, ey] at fy
  rw [c3, ez] at fz
  cases fx
  cases fy
  cases fz
  rw [c4, c5, c6] at hv2
  rw [firstPressed_congr self _ joy.buttons hcfg] at hr2
  have hspin := spin_pair self joy srv1 srv2 mem1 mem2 hret1 hret2
  refine ⟨hret1, hret2, ?_, by rw [hr1, hr2], ?_, ?_⟩
  · refine ⟨_, hv1, hv2, ?_⟩
    rw [hspin, velocityCommands_append, hv1, hv2]
    rfl
  · intro hp
    obtain ⟨p, hp⟩ := firstPressed_isSome_of_pressed self joy.buttons hp
    rw [hp] at hr1 hr2
    refine ⟨p, hr1, hr2, ?_⟩
    rw [hspin, headRequests_append, hr1, hr2]
    rfl
  · intro other mem ho
    have hoc : other.config = (joyCallback srv1 mem1 self joy).self.config := by rw [ho, hcfg]
    exact joyCallback_out_congr srv2 mem2 mem (joyCallback srv1 mem1 self joy).self other joy hoc
      (by rw [c1]; exact hx) (by rw [c2]; exact hy) (by rw [c3]; exact hz)
      (by rw [c7]; exact hd) (by rw [c8]; exact hm) (by rw [c9]; exact hu)

/-- Instance of C7 (amended): the default object, three axes and the UP button
pressed, the service answering the first time and failing the second. -/
theorem joyCallback_repeat_witness :
    headRequests
        (joyCallback failingService zeroed
          (joyCallback answeringService zeroed defaultRovio
            ⟨[1 / 2, 4 / 5, 0], [0, 0, 0, 1]⟩).self
          ⟨[1 / 2, 4 / 5, 0], [0, 0, 0, 1]⟩).out =
      headRequests
        (joyCallback answeringService zeroed defaultRovio
          ⟨[1 / 2, 4 / 5, 0], [0, 0, 0, 1]⟩).out :=
  (joyCallback_repeat answeringService failingService zeroed zeroed defaultRovio
    ⟨[1 / 2, 4 / 5, 0], [0, 0, 0, 1]⟩
    (by decide) (by decide) (by decide) (by decide) (by decide) (by decide)).2.2.2.1

/-- C9: the nine configuration members never change.  After any finite sequence
of events dispatched to the object built by the constructor, whatever the
buttons, the answers of the service and the memory around the arrays, and
whether or not a fault ended the run, they are the values the constructor took
from the parameters or the defaults; and one invocation of the handler, from
any state, leaves every member other than `cmd` and `head_srv_` as it was. -/
theorem configuration_invariant [Mul R] [Zero R] [One R] [Neg R] (p : Params R)
    (head0 : Head) (events : List (Joy R × HeadService × Beyond R)) :
    (spin (TeleopRovio.init p head0) events).self.config =
      ((param p.axis_linearx 1, param p.axis_lineary 0, param p.axis_angular 2),
        (param p.scale_linearx 1, param p.scale_lineary (-1), param p.scale_angular (-1)),
        (param p.button_head_down 1, param p.button_head_mid 2, param p.button_head_up 3)) ∧
    (spin (TeleopRovio.init p head0) events).self =
      { TeleopRovio.init p head0 with
        cmd := (spin (TeleopRovio.init p head0) events).self.cmd
        head_srv_ := (spin (TeleopRovio.init p head0) events).self.head_srv_ } ∧
    (∀ (srv : HeadService) (mem : Beyond R) (self : TeleopRovio R) (joy : Joy R),
      (joyCallback srv mem self joy).self =
        { self with
          cmd := (joyCallback srv mem self joy).self.cmd
          head_srv_ := (joyCallback srv mem self joy).self.head_srv_ }) := by
  refine ⟨?_, ?_, ?_⟩
  · rw [spin_config events (TeleopRovio.init p head0)]
    rfl
  · exact eq_of_config_eq _ _ (spin_config events (TeleopRovio.init p head0))
  · intro srv mem self joy
    exact eq_of_config_eq _ _ (joyCallback_config srv mem self joy)

/-! ## Pressed means equal to 1 -/

/-- C10: a button counts as pressed only when its state is exactly 1.  When none
of the three reads at the configured button indices gives 1, and so in
particular when the states the event holds at those indices are all different
from 1, the handler issues no head-position request.  The handler does the same
on two events with the same axes whose button arrays agree on which states
equal 1, so a state such as 2 or -1 acts like 0 and cannot block a button behind
it; and on an event whose axes array contains the configured axis indices, a
state other than 1 at `head_down_` (and at `head_mid_`) lets the request of the
next button whose state is 1 go out. -/
theorem pressed_iff_one [Mul R] [Zero R] (srv : HeadService) (mem : Beyond R)
    (self : TeleopRovio R) (joy : Joy R) :
    (read mem.buttons joy.buttons self.head_down_ ≠ some 1 →
      read mem.buttons joy.buttons self.head_mid_ ≠ some 1 →
      read mem.buttons joy.buttons self.head_up_ ≠ some 1 →
      headRequests (joyCallback srv mem self joy).out = []) ∧
    (∀ d m u : Int, elementAt joy.buttons self.head_down_ = some d → d ≠ 1 →
      elementAt joy.buttons self.head_mid_ = some m → m ≠ 1 →
      elementAt joy.buttons self.head_up_ = some u → u ≠ 1 →
      headRequests (joyCallback srv mem self joy).out = []) ∧
    (∀ other : Joy R, other.axes = joy.axes →
      other.buttons.map (fun b => decide (b = 1)) = joy.buttons.map (fun b => decide (b = 1)) →
      joyCallback srv mem self other = joyCallback srv mem self joy) ∧
    (inBounds joy.axes self.linearx_ → inBounds joy.axes self.lineary_ →
      inBounds joy.axes self.angular_ →
      (∀ d : Int, elementAt joy.buttons self.head_down_ = some d → d ≠ 1 →
        elementAt joy.buttons self.head_mid_ = some 1 →
        headRequests (joyCallback srv mem self joy).out = [HeadPosition.MID]) ∧
      (∀ d m : Int, elementAt joy.buttons self.head_down_ = some d → d ≠ 1 →
        elementAt joy.buttons self.head_mid_ = some m → m ≠ 1 →
        elementAt joy.buttons self.head_up_ = some 1 →
        headRequests (joyCallback srv mem self joy).out = [HeadPosition.UP])) := by
  refine ⟨joyCallback_no_request srv mem self joy, ?_, ?_, ?_⟩
  · intro d m u hd hd1 hm hm1 hu hu1
    exact joyCallback_no_request srv mem self joy (read_ne_one_of_elementAt _ hd hd1)
      (read_ne_one_of_elementAt _ hm hm1) (read_ne_one_of_elementAt _ hu hu1)
  · intro other ha hb
    exact joyCallback_buttons_congr srv mem self joy other ha hb
  · intro hx hy hz
    obtain ⟨ax, ay, az, hx, hy, hz⟩ := axis_reads_of_inBounds mem self joy hx hy hz
    rw [joyCallback_eq_headChain srv mem self joy ax ay az hx hy hz]
    constructor
    · intro d hd hd1 hm
      rw [headChain_of_mid srv mem (assigned self ax ay az) _ joy.buttons d
        (read_of_elementAt _ hd) hd1 (read_of_elementAt _ hm), callHead_headRequests]
      rfl
    · intro d m hd hd1 hm hm1 hu
      rw [headChain_of_up srv mem (assigned self ax ay az) _ joy.buttons d m
        (read_of_elementAt _ hd) hd1 (read_of_elementAt _ hm) hm1 (read_of_elementAt _ hu),
        callHead_headRequests]
      rfl

/-- Instance of C10: default object, button states 2, -1 and 3 at the three
configured indices give no request, and state 2 at `head_down_` with state 1 at
`head_mid_` gives the MID request. -/
theorem pressed_iff_one_witness :
    headRequests
        (joyCallback answeringService zeroed defaultRovio ⟨[0, 0, 0], [1, 2, -1, 3]⟩).out =
      [] ∧
    headRequests
        (joyCallback answeringService zeroed defaultRovio ⟨[0, 0, 0], [0, 2, 1, 0]⟩).out =
      [HeadPosition.MID] :=
  ⟨(pressed_iff_one answeringService zeroed defaultRovio ⟨[0, 0, 0], [1, 2, -1, 3]⟩).1
      (by decide) (by decide) (by decide),
    ((pressed_iff_one answeringService zeroed defaultRovio ⟨[0, 0, 0], [0, 2, 1, 0]⟩).2.2.2
      (by decide) (by decide) (by decide)).1 2 (by decide) (by decide) (by decide)⟩

end Claims

end RovioTeleop
